import Mathlib

/-!
Verification of the llama-stack-playground event-stream relay and its
supporting modules (`routes/playground.py`, `routes/evaluations.py`,
`modules/api.py`), as a shallow embedding in Lean.

Upstream SDK response objects are modelled as tagged variants mirroring the
attribute shapes the Python code probes (`hasattr` on `delta.text`,
`delta.content`, `step_details`, `tool_responses`, ...).  Python string
truthiness (`if token:`) is modelled by `strTruthy`.  `json.loads` is
modelled by oracle parameters (`p` for the ReAct structured-output parse,
`q` for the tool-result summary parse), so every theorem quantifies over
all possible parse behaviours.
-/

/-- One SSE frame: the JSON object written after `data: `.  Absent keys are
`none`; `done` is `none` when the Python dict carries no `done` key at all
(which happens on the chat/RAG error frames and the ReAct parse-error
frames). -/
structure Frame where
  content : Option String := none
  context : Option String := none
  error : Option String := none
  details : Option String := none
  thought : Option String := none
  action : Option (Option String × Option String) := none
  tool_result : Option (String × String) := none
  tool_info : Option String := none
  done : Option Bool := none
deriving DecidableEq, Repr

/-- Python truthiness of an optional string: `None` and `""` are falsy. -/
def strTruthy : Option String → Bool
  | some s => !(s == "")
  | none => false

/-- Python `a or b` on optional strings. -/
def pyOr (a b : Option String) : Option String :=
  if strTruthy a then a else b

/-- Python `str.strip()` whitespace set (ASCII part). -/
def isSpaceChar (c : Char) : Bool :=
  c == ' ' || c == '\t' || c == '\n' || c == '\r' || c == '\x0b' || c == '\x0c'

/-- Python `str.strip()`: drop leading and trailing whitespace. -/
def pyStrip (s : String) : String :=
  String.mk (((s.data.dropWhile isSpaceChar).reverse.dropWhile isSpaceChar).reverse)

/-- `s.startswith(pre)` on the character sequences. -/
def strStartsWith (s pre : String) : Bool :=
  pre.data.isPrefixOf s.data

/-- `s[n:]` by characters. -/
def strDrop (s : String) (n : Nat) : String :=
  String.mk (s.data.drop n)

/-- ASCII lowercasing of one character. -/
def lowerChar (c : Char) : Char :=
  if 65 ≤ c.toNat && c.toNat ≤ 90 then Char.ofNat (c.toNat + 32) else c

/-- ASCII lowercasing of a string (HTTP header names are ASCII). -/
def lowerStr (s : String) : String :=
  String.mk (s.data.map lowerChar)

/-- The case-insensitive request-header lookup of Flask (`request.headers.get`). -/
def headerGet (hs : List (String × String)) (key : String) : Option String :=
  (hs.find? (fun p => lowerStr p.1 == lowerStr key)).map (fun p => p.2)

/-- `LlamaStackApi._get_jwt_token` (modules/api.py lines 21-87): probe the
header mapping in fixed priority order and return the first truthy hit.
Under the `startswith("Bearer ")` guard, the Python expression
`split("Bearer ", 1)[1]` is the suffix after the 7-character head, so it
is embedded as `strDrop s 7`; Python `str.strip()` is `pyStrip`. -/
def getJwtToken (hs : List (String × String)) : Option String :=
  let t1 := pyOr (headerGet hs "X-Forwarded-Access-Token")
                 (headerGet hs "x-forwarded-access-token")
  if strTruthy t1 then t1 else
  let t2 := pyOr (headerGet hs "X-Auth-Request-Access-Token")
                 (headerGet hs "x-auth-request-access-token")
  if strTruthy t2 then t2 else
  let a := pyOr (pyOr (headerGet hs "Authorization") (headerGet hs "authorization"))
                (pyOr (headerGet hs "X-Forwarded-Authorization")
                      (headerGet hs "x-forwarded-authorization"))
  match a with
  | some s =>
      if strStartsWith s "Bearer " then
        let tok := pyStrip (strDrop s 7)
        if tok == "" then none else some tok
      else none
  | none => none

/-- Shape of `tool_group.mcp_endpoint` as probed by `_get_mcp_endpoints`:
an object with a `.uri` attribute, a dict with an optional `"uri"` key, a
plain string, or anything else. -/
inductive McpEndpoint where
  | uriAttr (u : String)
  | dict (uri : Option String)
  | str (u : String)
  | otherShape
deriving DecidableEq, Repr

/-- One entry of `client.toolgroups.list()`. -/
structure ToolGroup where
  identifier : String
  provider_id : String
  mcp_endpoint : Option McpEndpoint
deriving DecidableEq, Repr

/-- Python dict assignment `d[k] = v`: overwrite in place, else append. -/
def dictInsert (l : List (String × String)) (k v : String) : List (String × String) :=
  if l.any (fun p => p.1 == k) then
    l.map (fun p => if p.1 == k then (k, v) else p)
  else l ++ [(k, v)]

/-- The loop body of `_get_mcp_endpoints` (modules/api.py lines 110-125). -/
def mcpStep (acc : List (String × String)) (tg : ToolGroup) : List (String × String) :=
  if tg.provider_id == "model-context-protocol" && tg.mcp_endpoint.isSome then
    let uri : Option String :=
      match tg.mcp_endpoint with
      | some (McpEndpoint.uriAttr u) => some u
      | some (McpEndpoint.dict o) => o
      | some (McpEndpoint.str u) => some u
      | some McpEndpoint.otherShape => none
      | none => none
    if strTruthy uri then dictInsert acc tg.identifier (uri.getD "") else acc
  else acc

/-- Build the `mcp_endpoints` dict from the toolgroup listing. -/
def buildMcpEndpoints (groups : List ToolGroup) : List (String × String) :=
  groups.foldl mcpStep []

/-- The hardcoded fallback used when the discovery call fails
(modules/api.py lines 133-136). -/
def fallbackEndpoints : List (String × String) :=
  [("mcp::openshift", "http://ocp-mcp-server:8000/sse")]

/-- `LlamaStackApi._get_mcp_endpoints` (modules/api.py lines 89-140).
Inputs: the current `_mcp_endpoints_cache`, the `use_cache` flag, and the
outcome of `client.toolgroups.list()` (an exception is `Except.error`).
Returns `(result, new cache, whether the listing call was issued)`. -/
def getMcpEndpoints (cache : Option (List (String × String))) (useCache : Bool)
    (listing : Except String (List ToolGroup)) :
    List (String × String) × Option (List (String × String)) × Bool :=
  if useCache && cache.isSome then (cache.getD [], cache, false)
  else
    match listing with
    | Except.ok gs =>
        let eps := buildMcpEndpoints gs
        (eps, some eps, true)
    | Except.error _ => (fallbackEndpoints, some fallbackEndpoints, true)

/-- One model record as consumed by the page routes. -/
structure LlmModel where
  identifier : String
  model_type : String
deriving DecidableEq, Repr

/-- `playground.chat` GET branch (routes/playground.py lines 21-39): the
models listing is attempted inside `try`, degrading to `[]` on any
exception; the page always renders (`Except.ok`). -/
def chatGet (listing : Except String (List LlmModel)) : Except String (List String) :=
  Except.ok
    (match listing with
     | Except.ok ms => (ms.filter (fun m => m.model_type == "llm")).map (fun m => m.identifier)
     | Except.error _ => [])

/-- `evaluations.app_eval` GET branch (routes/evaluations.py lines 16-27):
`client.scoring_functions.list()` is called with no surrounding `try`, so a
listing failure propagates out of the route. -/
def appEvalGet (listing : Except String (List String)) : Except String (List String) :=
  match listing with
  | Except.ok sfs => Except.ok sfs
  | Except.error e => Except.error e

/-- `evaluations.native_eval` GET branch (routes/evaluations.py lines
96-112): benchmarks then models are listed, unguarded, so either failure
propagates. -/
def nativeEvalGet (benchListing : Except String (List String))
    (modelListing : Except String (List LlmModel)) :
    Except String (List String × List String) :=
  match benchListing with
  | Except.error e => Except.error e
  | Except.ok bs =>
      match modelListing with
      | Except.error e => Except.error e
      | Except.ok ms => Except.ok (bs, ms.map (fun m => m.identifier))

/-- Shape of the `delta` of a `step_progress` payload: each field is `some`
exactly when the corresponding attribute exists (an attribute that exists
but is falsy is modelled as `some ""`). -/
structure Delta where
  text : Option String := none
  content : Option String := none
deriving DecidableEq, Repr

/-- One item inside a list-valued tool-response content, as probed by the
handlers: an object with `.text`, a plain string, or anything else (whose
`str()` rendering is carried). -/
inductive ToolItem where
  | text (s : String)
  | str (s : String)
  | other (rendered : String)
deriving DecidableEq, Repr

/-- A tool-response `content` value, as probed by the handlers: an object
with `.text`, an object with `.content` (a string), a plain string, a list
of items, or anything else (whose `str()` rendering is carried). -/
inductive ToolContent where
  | text (s : String)
  | contentAttr (s : String)
  | str (s : String)
  | list (items : List ToolItem)
  | other (rendered : String)
deriving DecidableEq, Repr

/-- One entry of `step_details.tool_responses`; `tool_name` is `none` when
the attribute is missing (Python `getattr` default of `"unknown"`). -/
structure ToolResponse where
  tool_name : Option String
  content : ToolContent
deriving DecidableEq, Repr

/-- `payload.turn.output_message.content` as probed by the regular handler:
a plain string, a list of items, or some other shape. `none` at the use
site models a missing attribute in the chain. -/
inductive TurnContent where
  | str (s : String)
  | list (items : List ToolItem)
  | other
deriving DecidableEq, Repr

/-- `payload.step_details`, tagged by `step_type`.  For an inference step
the regular handler reads `step_details.output.content` when it is a
string (`some s`, `none` otherwise); the ReAct handler ignores it. -/
inductive StepDetails where
  | inference (output : Option String)
  | toolExecution (tool_calls : List String) (tool_responses : List ToolResponse)
  | other
deriving DecidableEq, Repr

/-- An upstream event payload, tagged by `payload.event_type`. -/
inductive Payload where
  | stepProgress (delta : Option Delta)
  | stepStart
  | turnStart
  | turnComplete (turn : Option TurnContent)
  | stepComplete (details : StepDetails)
  | otherEvent
deriving DecidableEq, Repr

/-- An upstream response object: either it carries `.event.payload`, or it
does not (`noPayload` carries the `str()` rendering used in the error
frame). -/
inductive UEvent where
  | noPayload (rendered : String)
  | ev (payload : Payload)
deriving DecidableEq, Repr

/-- True when the response carries a payload. -/
def UEvent.hasPayload : UEvent → Bool
  | UEvent.noPayload _ => false
  | UEvent.ev _ => true

/-- All responses in the stream carry payloads. -/
def allPayload (events : List UEvent) : Bool :=
  events.all UEvent.hasPayload

/-- True for a `turn_complete` event. -/
def isTurnComplete : UEvent → Bool
  | UEvent.ev (Payload.turnComplete _) => true
  | _ => false

/-- True for a `tool_execution` `step_complete` carrying at least one tool
response. -/
def hasToolResponses : UEvent → Bool
  | UEvent.ev (Payload.stepComplete (StepDetails.toolExecution _ (_ :: _))) => true
  | _ => false

/-- Rendering of one list item inside tool content (playground.py lines
766-773 and 854-861): `.text` if present, the string itself, else
`str(item)`. -/
def toolItemText : ToolItem → String
  | ToolItem.text s => s
  | ToolItem.str s => s
  | ToolItem.other r => r

/-- Rendering of one item of a list-valued `turn_complete` content
(playground.py lines 692-696): `.text` if present, the string itself;
any other item is skipped (no `else` branch). -/
def turnItemText : ToolItem → String
  | ToolItem.text s => s
  | ToolItem.str s => s
  | ToolItem.other _ => ""

/-- Normalisation of a tool-response content to a plain string, shared by
`_process_tool_execution` (lines 847-865) and the inline copy in
`_handle_regular_response` (lines 756-778): unwrap `.text`/`.content`,
join list items with newlines, stringify anything else. -/
def normalizeContent : ToolContent → String
  | ToolContent.text s => s
  | ToolContent.contentAttr s => s
  | ToolContent.str s => s
  | ToolContent.list items => String.intercalate "\n" (items.map toolItemText)
  | ToolContent.other r => r

/-- `_process_tool_execution` (playground.py lines 839-870): one
`(tool_name, normalized content)` pair per tool response, with the
`"unknown"` default for a missing name. -/
def processToolExecution (resps : List ToolResponse) : List (String × String) :=
  resps.map (fun r => (r.tool_name.getD "unknown", normalizeContent r.content))

/-- `f.done == some true`. -/
def isDoneTrue (f : Frame) : Bool :=
  f.done == some true

/-- Exactly one frame carries `done: true` and it is the last frame. -/
def oneDoneLast (fs : List Frame) : Bool :=
  fs.countP isDoneTrue == 1 && ((fs.getLast?.map isDoneTrue).getD false)

/-- One chunk of the chat-completion stream, as probed by `chat.generate`
(playground.py lines 90-94): whether `chunk.event.event_type == "progress"`
and the optional `chunk.event.delta.text`. -/
structure ChatChunk where
  isProgress : Bool
  text : Option String
deriving DecidableEq, Repr

/-- Loop body of `chat.generate`: accumulate `delta.text` of progress
chunks (no truthiness check — empty deltas still yield a frame) and emit
the accumulated content with `done: false`. Returns the frames and the
final accumulated string. -/
def chatLoop (full : String) : List ChatChunk → List Frame × String
  | [] => ([], full)
  | c :: rest =>
      if c.isProgress then
        match c.text with
        | some t =>
            let full2 := full ++ t
            let r := chatLoop full2 rest
            (({ content := some full2, done := some false } : Frame) :: r.1, r.2)
        | none => chatLoop full rest
      else chatLoop full rest

/-- `chat.generate` (playground.py lines 73-101).  `chunks` are the chunks
the upstream iterator yields before finishing or raising; `exc` is the
exception message when one is raised.  On success the terminal frame is
`{content, done: true}`; on exception a single `{error}` frame — with no
`done` key — ends the stream. -/
def chatGenerate (chunks : List ChatChunk) (exc : Option String) : List Frame :=
  let r := chatLoop "" chunks
  match exc with
  | none => r.1 ++ [({ content := some r.2, done := some true } : Frame)]
  | some m => r.1 ++ [({ error := some m } : Frame)]

/-- One chunk of the RAG stream, as probed by `rag_query.generate`
(playground.py lines 281-284): only `chunk.event.delta.text` is probed
(no event-type check). -/
structure RagChunk where
  text : Option String
deriving DecidableEq, Repr

/-- Loop body of `rag_query.generate`: accumulate and emit
`{content, context, done: false}` per text-bearing chunk. -/
def ragLoop (ctx full : String) : List RagChunk → List Frame × String
  | [] => ([], full)
  | c :: rest =>
      match c.text with
      | some t =>
          let full2 := full ++ t
          let r := ragLoop ctx full2 rest
          (({ content := some full2, context := some ctx, done := some false } : Frame) :: r.1,
           r.2)
      | none => ragLoop ctx full rest

/-- `rag_query.generate` (playground.py lines 271-291): same termination
shape as the chat generator, with the RAG context attached. -/
def ragGenerate (ctx : String) (chunks : List RagChunk) (exc : Option String) : List Frame :=
  let r := ragLoop ctx "" chunks
  match exc with
  | none => r.1 ++ [({ content := some r.2, context := some ctx, done := some true } : Frame)]
  | some m => r.1 ++ [({ error := some m } : Frame)]

/-- State threaded through `_handle_regular_response`. -/
structure RegState where
  fullResponse : String
  hasContent : Bool
deriving DecidableEq, Repr

/-- Initial state of `_handle_regular_response`. -/
def initRegState : RegState := { fullResponse := "", hasContent := false }

/-- One iteration of the `_handle_regular_response` loop (playground.py
lines 599-813), given one upstream response. -/
def regularEventStep (st : RegState) : UEvent → RegState × List Frame
  | UEvent.noPayload r =>
      (st,
       [({ error := some ("Error occurred in the Llama Stack Cluster: " ++ r),
           done := some false } : Frame)])
  | UEvent.ev pay =>
      match pay with
      | Payload.stepProgress d =>
          match d with
          | none => (st, [])
          | some delta =>
              match delta.text with
              | some t =>
                  if t == "" then (st, [])
                  else
                    let full2 := st.fullResponse ++ t
                    ({ fullResponse := full2, hasContent := true },
                     [({ content := some full2, done := some false } : Frame)])
              | none =>
                  match delta.content with
                  | some c =>
                      if c == "" then (st, [])
                      else
                        let full2 := st.fullResponse ++ c
                        ({ fullResponse := full2, hasContent := true },
                         [({ content := some full2, done := some false } : Frame)])
                  | none => (st, [])
      | Payload.stepStart => (st, [])
      | Payload.turnStart => (st, [])
      | Payload.otherEvent => (st, [])
      | Payload.turnComplete t =>
          match t with
          | some (TurnContent.str s) =>
              let full2 := st.fullResponse ++ s
              ({ fullResponse := full2, hasContent := true },
               [({ content := some full2, done := some false } : Frame)])
          | some (TurnContent.list items) =>
              let full2 := st.fullResponse ++ String.join (items.map turnItemText)
              ({ fullResponse := full2, hasContent := true },
               [({ content := some full2, done := some false } : Frame)])
          | some TurnContent.other => (st, [])
          | none => (st, [])
      | Payload.stepComplete details =>
          match details with
          | StepDetails.toolExecution calls resps =>
              let infoF : List Frame :=
                match calls with
                | [] => [({ tool_info := some "No tool_calls present in step_details",
                            done := some false } : Frame)]
                | n :: _ => [({ tool_info := some ("Using \"" ++ n ++ "\" tool"),
                                done := some false } : Frame)]
              let resF : List Frame :=
                resps.filterMap (fun r =>
                  let c := normalizeContent r.content
                  if c == "" then none
                  else some ({ tool_result := some (r.tool_name.getD "unknown", c),
                               done := some false } : Frame))
              (st, infoF ++ resF)
          | StepDetails.inference output =>
              match output with
              | some s =>
                  let full2 := st.fullResponse ++ s
                  ({ fullResponse := full2, hasContent := true },
                   [({ content := some full2, done := some false } : Frame)])
              | none => (st, [])
          | StepDetails.other => (st, [])

/-- The full `_handle_regular_response` loop over the upstream responses.
Returns the emitted frames and the final state. -/
def regularLoop (st : RegState) : List UEvent → List Frame × RegState
  | [] => ([], st)
  | e :: rest =>
      let r := regularEventStep st e
      let r2 := regularLoop r.1 rest
      (r.2 ++ r2.1, r2.2)

/-- `_handle_regular_response` (playground.py lines 591-836).  `events` are
the responses the upstream iterator yields before finishing or raising;
`exc` is the exception message (with traceback) when iteration raises, in
which case an `{error, done: false}` frame is appended (lines 825-829).
In every case the final `{content, done: true}` frame follows, using the
placeholder when no content was captured (lines 833-836). -/
def handleRegularResponse (events : List UEvent) (exc : Option String) : List Frame :=
  let r := regularLoop initRegState events
  let fs :=
    match exc with
    | none => r.1
    | some m =>
        r.1 ++ [({ error := some ("Error processing response: " ++ m),
                   done := some false } : Frame)]
  fs ++ [({ content := some (if r.2.hasContent then r.2.fullResponse
                             else "No response generated"),
            done := some true } : Frame)]

/-- The `action` object of a parsed ReAct step: the values of
`action.get("tool_name")` and `action.get("tool_params")` (the latter
carried as its JSON rendering). -/
structure ReactAction where
  tool_name : Option String
  tool_params : Option String
deriving DecidableEq, Repr

/-- The fields `_handle_react_response` reads from a successfully parsed
ReAct step (`react_output_data.get(...)`).  `action` is `some` exactly
when the parsed `action` value is a truthy dict (a non-dict or falsy
`action` takes no branch in the code). -/
structure ReactOutput where
  thought : Option String
  action : Option ReactAction
  answer : Option String
deriving DecidableEq, Repr

/-- Outcome of `json.loads(current_step_content)` followed by the `.get`
probes in the inference branch: success, a `json.JSONDecodeError`, or any
other exception (e.g. `.get` on a non-dict JSON value), whose message is
carried. -/
inductive ParseResult where
  | ok (o : ReactOutput)
  | decodeErr
  | procErr (msg : String)
deriving DecidableEq, Repr

/-- State threaded through `_handle_react_response`. -/
structure ReactState where
  currentStepContent : String
  finalAnswer : Option String
  toolResults : List (String × String)
  fullResponse : String
deriving DecidableEq, Repr

/-- Initial state of `_handle_react_response`. -/
def initReactState : ReactState :=
  { currentStepContent := "", finalAnswer := none, toolResults := [], fullResponse := "" }

/-- One iteration of the `_handle_react_response` loop (playground.py
lines 502-580) for a payload-bearing response, parameterised by the
structured-output parse oracle `p`. -/
def reactEventStep (p : String → ParseResult) (st : ReactState) :
    Payload → ReactState × List Frame
  | Payload.stepProgress d =>
      let t : Option String :=
        match d with
        | some delta =>
            match delta.text with
            | some s => some s
            | none => delta.content
        | none => none
      if strTruthy t then
        let s := t.getD ""
        ({ st with currentStepContent := st.currentStepContent ++ s,
                   fullResponse := st.fullResponse ++ s },
         [({ content := some (st.fullResponse ++ s), done := some false } : Frame)])
      else (st, [])
  | Payload.stepComplete details =>
      match details with
      | StepDetails.inference _ =>
          match p st.currentStepContent with
          | ParseResult.ok o =>
              let answerOk := strTruthy o.answer && !(o.answer == some "null")
              let full2 :=
                if answerOk then
                  st.fullResponse ++ "\n\n✅ **Final Answer:**\n" ++ o.answer.getD ""
                else st.fullResponse
              let thoughtFs : List Frame :=
                if strTruthy o.thought then
                  [({ thought := o.thought, done := some false } : Frame)]
                else []
              let actionFs : List Frame :=
                match o.action with
                | some a =>
                    [({ action := some (a.tool_name, a.tool_params),
                        done := some false } : Frame)]
                | none => []
              let answerFs : List Frame :=
                if answerOk then [({ content := some full2, done := some false } : Frame)]
                else []
              ({ st with currentStepContent := "",
                         fullResponse := full2,
                         finalAnswer := if answerOk then o.answer else st.finalAnswer },
               thoughtFs ++ actionFs ++ answerFs)
          | ParseResult.decodeErr =>
              ({ st with currentStepContent := "" },
               [({ error := some "Failed to parse ReAct step",
                   content := some st.currentStepContent } : Frame)])
          | ParseResult.procErr m =>
              ({ st with currentStepContent := "" },
               [({ error := some ("Failed to process ReAct step: " ++ m) } : Frame)])
      | StepDetails.toolExecution _ resps =>
          let new := processToolExecution resps
          ({ st with currentStepContent := "", toolResults := st.toolResults ++ new },
           new.map (fun r => ({ tool_result := some r, done := some false } : Frame)))
      | StepDetails.other => ({ st with currentStepContent := "" }, [])
  | Payload.stepStart => (st, [])
  | Payload.turnStart => (st, [])
  | Payload.turnComplete _ => (st, [])
  | Payload.otherEvent => (st, [])

/-- The `_handle_react_response` loop over upstream responses.  A response
without a payload emits one `{error, details}` frame and returns early
(lines 503-505); the third component records whether the loop ran to
completion. -/
def reactLoop (p : String → ParseResult) (st : ReactState) :
    List UEvent → List Frame × ReactState × Bool
  | [] => ([], st, true)
  | UEvent.noPayload r :: _ =>
      ([({ error := some "Missing payload attribute", details := some r } : Frame)],
       st, false)
  | UEvent.ev pay :: rest =>
      let r := reactEventStep p st pay
      let r2 := reactLoop p r.1 rest
      (r.2 ++ r2.1, r2.2)

/-- The final state of the `_handle_react_response` loop on a stream. -/
def reactFinalState (p : String → ParseResult) (events : List UEvent) : ReactState :=
  (reactLoop p initReactState events).2.1

/-- A JSON value, as produced by the `json.loads` oracle used by
`_format_tool_results_summary`.  `num` carries the Python
rendering. -/
inductive JVal where
  | str (s : String)
  | num (s : String)
  | bool (b : Bool)
  | null
  | arr (items : List JVal)
  | obj (fields : List (String × JVal))

mutual
/-- Structural equality of JSON values. -/
def beqJVal : JVal → JVal → Bool
  | JVal.str a, JVal.str b => a == b
  | JVal.num a, JVal.num b => a == b
  | JVal.bool a, JVal.bool b => a == b
  | JVal.null, JVal.null => true
  | JVal.arr xs, JVal.arr ys => beqJValList xs ys
  | JVal.obj xs, JVal.obj ys => beqJValFields xs ys
  | _, _ => false

/-- Structural equality of JSON arrays. -/
def beqJValList : List JVal → List JVal → Bool
  | [], [] => true
  | x :: xs, y :: ys => beqJVal x y && beqJValList xs ys
  | _, _ => false

/-- Structural equality of JSON object field lists. -/
def beqJValFields : List (String × JVal) → List (String × JVal) → Bool
  | [], [] => true
  | x :: xs, y :: ys => x.1 == y.1 && beqJVal x.2 y.2 && beqJValFields xs ys
  | _, _ => false
end

instance : BEq JVal := ⟨beqJVal⟩

mutual
/-- Python `repr()` of a JSON-shaped value (used by `str()` inside
containers).  Quotes and braces are the Python renderings. -/
def pyRepr : JVal → String
  | JVal.str s => "\x27" ++ s ++ "\x27"
  | JVal.num s => s
  | JVal.bool b => if b then "True" else "False"
  | JVal.null => "None"
  | JVal.arr items => "[" ++ String.intercalate ", " (pyReprList items) ++ "]"
  | JVal.obj fields => "\x7b" ++ String.intercalate ", " (pyReprFields fields) ++ "\x7d"

/-- `repr()` of each element of a list. -/
def pyReprList : List JVal → List String
  | [] => []
  | v :: vs => pyRepr v :: pyReprList vs

/-- `repr()` of each `key: value` entry of a dict. -/
def pyReprFields : List (String × JVal) → List String
  | [] => []
  | f :: fs => ("\x27" ++ f.1 ++ "\x27: " ++ pyRepr f.2) :: pyReprFields fs
end

/-- Python `str()` of a JSON-shaped value: strings render bare, everything
else as `repr()`. -/
def pyStr : JVal → String
  | JVal.str s => s
  | v => pyRepr v

/-- Python `key in v` for a string key: dict-key membership, list-element
membership, substring test on strings; raises (`none`) on other types. -/
def jIn (key : String) (v : JVal) : Option Bool :=
  match v with
  | JVal.obj fields => some (fields.any (fun f => f.1 == key))
  | JVal.arr items => some (items.any (fun x => x == JVal.str key))
  | JVal.str s => some ((s.splitOn key).length != 1)
  | _ => none

/-- Python `v[key]` for a string key: dict lookup; raises (`none`) on
every other type. -/
def jSub (v : JVal) (key : String) : Option JVal :=
  match v with
  | JVal.obj fields => (fields.find? (fun f => f.1 == key)).map (fun f => f.2)
  | _ => none

/-- Python `v[:3]`: list slice, or the first three characters of a string
(as one-character strings); raises (`none`) on other types. -/
def jSlice3 (v : JVal) : Option (List JVal) :=
  match v with
  | JVal.arr items => some (items.take 3)
  | JVal.str s => some ((s.toList.take 3).map (fun c => JVal.str (String.singleton c)))
  | _ => none

/-- Python `d.get(key, default)` on the field list of a dict. -/
def jGetD (fields : List (String × JVal)) (key : String) (d : JVal) : JVal :=
  ((fields.find? (fun f => f.1 == key)).map (fun f => f.2)).getD d

/-- The per-tool fallback line appended when summarisation raises
(playground.py lines 907-908). -/
def complexMsg (tool_name : String) : String :=
  "\n**" ++ tool_name ++ "** was used but returned complex data.\n"

/-- The `web_search` branch body (playground.py lines 880-884): each item
must be a dict (`.get`), its `content` value a string (`.strip()`);
returns the parts produced before any raise, plus whether a raise
occurred. -/
def webItemsParts : List JVal → List String × Bool
  | [] => ([], false)
  | JVal.obj fields :: rest =>
      let title := pyStr (jGetD fields "title" (JVal.str "Untitled"))
      let url := pyStr (jGetD fields "url" (JVal.str ""))
      match jGetD fields "content" (JVal.str "") with
      | JVal.str c =>
          let part := "\n- **" ++ title ++ "**\n  " ++ pyStrip c ++ "\n  [Source](" ++
            url ++ ")\n"
          let r := webItemsParts rest
          (part :: r.1, r.2)
      | _ => ([], true)
  | _ :: _ => ([], true)

/-- The `results` branch body (playground.py lines 885-892), over the
first three results, enumerated from 1. -/
def resultsParts (items : List JVal) : List String :=
  (items.enumFrom 1).map (fun ir =>
    match ir.2 with
    | JVal.obj fields =>
        let name :=
          pyStr (jGetD fields "name"
            (jGetD fields "title" (JVal.str ("Result " ++ toString ir.1))))
        let description :=
          pyStr (jGetD fields "description"
            (jGetD fields "content" (jGetD fields "summary" (JVal.str ""))))
        "\n- **" ++ name ++ "**\n  " ++ description ++ "\n"
    | other => "\n- " ++ pyStr other ++ "\n")

/-- The generic-dict branch body (playground.py lines 893-900): first five
entries, short string values inline, everything else `[Complex data]`. -/
def dictParts (fields : List (String × JVal)) : List String :=
  ["\n```\n"] ++
  (fields.take 5).map (fun f =>
    match f.2 with
    | JVal.str s =>
        if s.length < 100 then f.1 ++ ": " ++ s ++ "\n"
        else f.1 ++ ": [Complex data]\n"
    | _ => f.1 ++ ": [Complex data]\n") ++
  ["```\n"]

/-- The generic-list branch body (playground.py lines 901-906): first
three items, strings and `text`-bearing dicts only. -/
def listParts (items : List JVal) : List String :=
  (items.take 3).filterMap (fun item =>
    match item with
    | JVal.str s => some ("- " ++ s ++ "\n")
    | JVal.obj fields =>
        if fields.any (fun f => f.1 == "text") then
          some ("- " ++ pyStr (jGetD fields "text" JVal.null) ++ "\n")
        else none
    | _ => none)

/-- The third and fourth `elif` branches: non-empty dict rendering, else
non-empty list rendering, else nothing. -/
def branch34 (parsed : JVal) : List String :=
  match parsed with
  | JVal.obj fields => if fields.length > 0 then dictParts fields else []
  | JVal.arr items => if items.length > 0 then listParts items else []
  | _ => []

/-- The `"results" in parsed and isinstance(parsed["results"], list)`
branch, falling through to the generic branches when the test is false and
raising when the membership test or the subscript raises. -/
def branch2plus (tool_name : String) (parsed : JVal) : List String :=
  match jIn "results" parsed with
  | none => [complexMsg tool_name]
  | some false => branch34 parsed
  | some true =>
      match jSub parsed "results" with
      | none => [complexMsg tool_name]
      | some (JVal.arr items) => resultsParts (items.take 3)
      | some _ => branch34 parsed

/-- The `web_search`/`top_k` branch, including the subscript and slice
failure modes. -/
def webBranch (tool_name : String) (parsed : JVal) : List String :=
  match jSub parsed "top_k" with
  | none => [complexMsg tool_name]
  | some tk =>
      match jSlice3 tk with
      | none => [complexMsg tool_name]
      | some items =>
          let r := webItemsParts items
          if r.2 then r.1 ++ [complexMsg tool_name] else r.1

/-- Summary parts contributed by one `(tool_name, content)` pair
(playground.py lines 876-908), with `q` the `json.loads` oracle. -/
def summaryForTool (q : String → Option JVal) (tool_name content : String) : List String :=
  match q content with
  | none => [complexMsg tool_name]
  | some parsed =>
      if tool_name == "web_search" then
        match jIn "top_k" parsed with
        | none => [complexMsg tool_name]
        | some true => webBranch tool_name parsed
        | some false => branch2plus tool_name parsed
      else branch2plus tool_name parsed

/-- `_format_tool_results_summary` (playground.py lines 873-910). -/
def formatToolResultsSummary (q : String → Option JVal)
    (tool_results : List (String × String)) : String :=
  String.join (tool_results.flatMap (fun tr => summaryForTool q tr.1 tr.2))

/-- End-of-loop frames of `_handle_react_response` (playground.py lines
582-588): when no final answer was captured but tool results exist,
synthesise a summary, append it to the buffer and emit one more content
frame; then emit the terminal frame, with the placeholder for an empty
buffer (`full_response or "No response generated"` in Python terms). -/
def reactEnd (q : String → Option JVal) (st : ReactState) : List Frame :=
  if st.finalAnswer.isNone && !st.toolResults.isEmpty then
    let summary := formatToolResultsSummary q st.toolResults
    let full2 := st.fullResponse ++ "\n\n**Here\x27s what I found:**\n" ++ summary
    [({ content := some summary, done := some false } : Frame),
     ({ content := some (if full2 == "" then "No response generated" else full2),
        done := some true } : Frame)]
  else
    [({ content := some (if st.fullResponse == "" then "No response generated"
                         else st.fullResponse),
        done := some true } : Frame)]

/-- The SSE stream of the ReAct path of `tools.generate` (playground.py
lines 423-483 with `_handle_react_response`): when iteration raises after
the listed events, the exception handler of `generate` emits a single
`{error, done: true}` frame (the diagnostic dict is collapsed to its
message); when the handler returned early, `generate` adds nothing. -/
def reactStream (p : String → ParseResult) (q : String → Option JVal)
    (events : List UEvent) (exc : Option String) : List Frame :=
  let r := reactLoop p initReactState events
  if r.2.2 then
    match exc with
    | none => r.1 ++ reactEnd q r.2.1
    | some m => r.1 ++ [({ error := some m, done := some true } : Frame)]
  else r.1

/-! ### Helper lemmas -/

/-- Every frame emitted by one regular-handler iteration has
`done ≠ true`. -/
theorem regularEventStep_done_false (st : RegState) (e : UEvent) :
    ∀ f ∈ (regularEventStep st e).2, isDoneTrue f = false := by
  intro f hf
  rcases e with r | pay
  · simp only [regularEventStep, List.mem_singleton] at hf
    subst hf; rfl
  rcases pay with d | _ | _ | t | details | _
  · rcases d with _ | ⟨dt, dc⟩
    · simp [regularEventStep] at hf
    · rcases dt with _ | t0
      · rcases dc with _ | c0
        · simp [regularEventStep] at hf
        · simp only [regularEventStep] at hf
          split at hf
          · simp at hf
          · simp only [List.mem_singleton] at hf; subst hf; rfl
      · simp only [regularEventStep] at hf
        split at hf
        · simp at hf
        · simp only [List.mem_singleton] at hf; subst hf; rfl
  · simp [regularEventStep] at hf
  · simp [regularEventStep] at hf
  · rcases t with _ | tc
    · simp [regularEventStep] at hf
    · rcases tc with s | items | _
      · simp only [regularEventStep, List.mem_singleton] at hf; subst hf; rfl
      · simp only [regularEventStep, List.mem_singleton] at hf; subst hf; rfl
      · simp [regularEventStep] at hf
  · rcases details with o | ⟨calls, resps⟩ | _
    · rcases o with _ | s
      · simp [regularEventStep] at hf
      · simp only [regularEventStep, List.mem_singleton] at hf; subst hf; rfl
    · simp only [regularEventStep, List.mem_append] at hf
      rcases hf with h | h
      · rcases calls with _ | ⟨n, ns⟩
        · simp only [List.mem_singleton] at h; subst h; rfl
        · simp only [List.mem_singleton] at h; subst h; rfl
      · rcases List.mem_filterMap.mp h with ⟨r0, _, hsome⟩
        split at hsome
        · exact absurd hsome (by simp)
        · rcases Option.some.inj hsome with rfl; rfl
    · simp [regularEventStep] at hf
  · simp [regularEventStep] at hf

/-- Every frame emitted by the regular-handler loop has `done ≠ true`. -/
theorem regularLoop_done_false :
    ∀ (events : List UEvent) (st : RegState),
      ∀ f ∈ (regularLoop st events).1, isDoneTrue f = false := by
  intro events
  induction events with
  | nil => intro st f hf; simp [regularLoop] at hf
  | cons e rest ih =>
      intro st f hf
      simp only [regularLoop, List.mem_append] at hf
      rcases hf with h | h
      · exact regularEventStep_done_false st e f h
      · exact ih _ f h

/-- Every frame emitted by one ReAct-handler iteration has `done ≠ true`. -/
theorem reactEventStep_done_false (p : String → ParseResult) (st : ReactState)
    (pay : Payload) :
    ∀ f ∈ (reactEventStep p st pay).2, isDoneTrue f = false := by
  intro f hf
  rcases pay with d | _ | _ | _ | details | _
  · simp only [reactEventStep] at hf
    split at hf
    · simp only [List.mem_singleton] at hf; subst hf; rfl
    · simp at hf
  · simp [reactEventStep] at hf
  · simp [reactEventStep] at hf
  · simp [reactEventStep] at hf
  · rcases details with o | ⟨calls, resps⟩ | _
    · simp only [reactEventStep] at hf
      rcases hp : p st.currentStepContent with o2 | _ | m
      · rw [hp] at hf
        simp only [List.mem_append] at hf
        rcases hf with (h | h) | h
        · split at h
          · simp only [List.mem_singleton] at h; subst h; rfl
          · simp at h
        · rcases ha : o2.action with _ | a
          · rw [ha] at h; simp at h
          · rw [ha] at h; simp only [List.mem_singleton] at h; subst h; rfl
        · split at h
          · simp only [List.mem_singleton] at h; subst h; rfl
          · simp at h
      · rw [hp] at hf
        simp only [List.mem_singleton] at hf; subst hf; rfl
      · rw [hp] at hf
        simp only [List.mem_singleton] at hf; subst hf; rfl
    · simp only [reactEventStep] at hf
      rcases List.mem_map.mp hf with ⟨r0, _, hr⟩
      subst hr; rfl
    · simp [reactEventStep] at hf
  · simp [reactEventStep] at hf

/-- Every frame emitted by the ReAct-handler loop has `done ≠ true`. -/
theorem reactLoop_done_false (p : String → ParseResult) :
    ∀ (events : List UEvent) (st : ReactState),
      ∀ f ∈ (reactLoop p st events).1, isDoneTrue f = false := by
  intro events
  induction events with
  | nil => intro st f hf; simp [reactLoop] at hf
  | cons e rest ih =>
      intro st f hf
      rcases e with r | pay
      · simp only [reactLoop, List.mem_singleton] at hf; subst hf; rfl
      · simp only [reactLoop, List.mem_append] at hf
        rcases hf with h | h
        · exact reactEventStep_done_false p st pay f h
        · exact ih _ f h

/-- With payload-bearing responses only, the ReAct loop runs to
completion. -/
theorem reactLoop_completes (p : String → ParseResult) :
    ∀ (events : List UEvent) (st : ReactState), allPayload events = true →
      (reactLoop p st events).2.2 = true := by
  intro events
  induction events with
  | nil => intro st _; rfl
  | cons e rest ih =>
      intro st hall
      rcases e with r | pay
      · simp [allPayload, UEvent.hasPayload] at hall
      · have hrest : allPayload rest = true := by
          simp only [allPayload, List.all_cons, Bool.and_eq_true] at hall
          exact hall.2
        simp only [reactLoop]
        exact ih _ hrest

/-- One ReAct iteration only ever extends the collected tool results. -/
theorem reactEventStep_toolResults (p : String → ParseResult) (st : ReactState)
    (pay : Payload) :
    ∃ l, (reactEventStep p st pay).1.toolResults = st.toolResults ++ l := by
  rcases pay with d | _ | _ | _ | details | _
  · simp only [reactEventStep]
    split
    · exact ⟨[], (List.append_nil _).symm⟩
    · exact ⟨[], (List.append_nil _).symm⟩
  · exact ⟨[], (List.append_nil _).symm⟩
  · exact ⟨[], (List.append_nil _).symm⟩
  · exact ⟨[], (List.append_nil _).symm⟩
  · rcases details with o | ⟨calls, resps⟩ | _
    · simp only [reactEventStep]
      rcases hp : p st.currentStepContent with o2 | _ | m <;>
        exact ⟨[], (List.append_nil _).symm⟩
    · exact ⟨processToolExecution resps, rfl⟩
    · exact ⟨[], (List.append_nil _).symm⟩
  · exact ⟨[], (List.append_nil _).symm⟩

/-- The ReAct loop only ever extends the collected tool results. -/
theorem reactLoop_toolResults (p : String → ParseResult) :
    ∀ (events : List UEvent) (st : ReactState),
      ∃ l, (reactLoop p st events).2.1.toolResults = st.toolResults ++ l := by
  intro events
  induction events with
  | nil => intro st; exact ⟨[], (List.append_nil _).symm⟩
  | cons e rest ih =>
      intro st
      rcases e with r | pay
      · exact ⟨[], (List.append_nil _).symm⟩
      · obtain ⟨l1, h1⟩ := reactEventStep_toolResults p st pay
        obtain ⟨l2, h2⟩ := ih (reactEventStep p st pay).1
        refine ⟨l1 ++ l2, ?_⟩
        simp only [reactLoop]
        rw [h2, h1, List.append_assoc]

/-- A `hasToolResponses` event is a tool-execution step-complete with at
least one response. -/
theorem hasToolResponses_shape (e : UEvent) (h : hasToolResponses e = true) :
    ∃ calls r rs,
      e = UEvent.ev (Payload.stepComplete (StepDetails.toolExecution calls (r :: rs))) := by
  rcases e with r | pay
  · simp [hasToolResponses] at h
  rcases pay with d | _ | _ | _ | details | _ <;> try simp [hasToolResponses] at h
  rcases details with o | ⟨calls, resps⟩ | _ <;> try simp [hasToolResponses] at h
  rcases resps with _ | ⟨r0, rs⟩
  · simp [hasToolResponses] at h
  · exact ⟨calls, r0, rs, rfl⟩

/-- A payload-only stream containing a tool-execution step with at least
one response leaves the ReAct loop with a non-empty tool-result list. -/
theorem reactLoop_toolResults_ne (p : String → ParseResult) :
    ∀ (events : List UEvent) (st : ReactState), allPayload events = true →
      events.any hasToolResponses = true →
      (reactLoop p st events).2.1.toolResults ≠ [] := by
  intro events
  induction events with
  | nil => intro st _ hany; simp at hany
  | cons e rest ih =>
      intro st hall hany
      have hall2 : e.hasPayload = true ∧ allPayload rest = true := by
        simpa only [allPayload, List.all_cons, Bool.and_eq_true] using hall
      by_cases htool : hasToolResponses e = true
      · obtain ⟨calls, r0, rs, rfl⟩ := hasToolResponses_shape e htool
        simp only [reactLoop]
        obtain ⟨l2, h2⟩ :=
          reactLoop_toolResults p rest
            (reactEventStep p st
              (Payload.stepComplete (StepDetails.toolExecution calls (r0 :: rs)))).1
        rw [h2]
        simp [reactEventStep, processToolExecution]
      · have hrestany : rest.any hasToolResponses = true := by
          simp only [List.any_cons, Bool.or_eq_true] at hany
          rcases hany with h | h
          · exact absurd h htool
          · exact h
        rcases e with r | pay
        · rcases hall2 with ⟨h1, _⟩
          simp [UEvent.hasPayload] at h1
        · simp only [reactLoop]
          exact ih _ hall2.2 hrestany

/-- Appending one `done: true` frame to all-not-done frames yields a
stream with exactly one `done: true` frame, in last position. -/
theorem oneDoneLast_append (fs : List Frame) (f : Frame)
    (h : ∀ g ∈ fs, isDoneTrue g = false) (hf : isDoneTrue f = true) :
    oneDoneLast (fs ++ [f]) = true := by
  have h1 : fs.countP isDoneTrue = 0 :=
    List.countP_eq_zero.mpr (fun a ha => by simp [h a ha])
  unfold oneDoneLast
  rw [List.countP_append, h1, List.getLast?_concat]
  simp [hf, List.countP_cons]

/-- The end-of-loop frames of the ReAct handler: some not-done frames
followed by one terminal frame whose content is never the empty string. -/
theorem reactEnd_shape (q : String → Option JVal) (st : ReactState) :
    ∃ gs f, reactEnd q st = gs ++ [f] ∧ (∀ g ∈ gs, isDoneTrue g = false) ∧
      isDoneTrue f = true ∧ ∃ c, f.content = some c ∧ c ≠ "" := by
  unfold reactEnd
  split
  · refine ⟨[({ content := some (formatToolResultsSummary q st.toolResults),
                done := some false } : Frame)], _, rfl, ?_, rfl, ?_⟩
    · intro g hg
      simp only [List.mem_singleton] at hg
      subst hg; rfl
    · refine ⟨_, rfl, ?_⟩
      split
      · decide
      · next hfull =>
          intro hemp
          exact hfull (by simp [hemp])
  · refine ⟨[], _, rfl, by simp, rfl, ?_⟩
    refine ⟨_, rfl, ?_⟩
    split
    · decide
    · next hfull =>
        intro hemp
        exact hfull (by simp [hemp])

/-- Every frame emitted by the chat progress loop has `done ≠ true`. -/
theorem chatLoop_done_false :
    ∀ (chunks : List ChatChunk) (full : String),
      ∀ f ∈ (chatLoop full chunks).1, isDoneTrue f = false := by
  intro chunks
  induction chunks with
  | nil => intro full f hf; simp [chatLoop] at hf
  | cons c rest ih =>
      intro full f hf
      simp only [chatLoop] at hf
      split at hf
      · rcases hc : c.text with _ | t
        · rw [hc] at hf; exact ih _ f hf
        · rw [hc] at hf
          simp only [List.mem_cons] at hf
          rcases hf with h | h
          · subst h; rfl
          · exact ih _ f h
      · exact ih _ f hf

/-- Every frame emitted by the RAG progress loop has `done ≠ true`. -/
theorem ragLoop_done_false (ctx : String) :
    ∀ (chunks : List RagChunk) (full : String),
      ∀ f ∈ (ragLoop ctx full chunks).1, isDoneTrue f = false := by
  intro chunks
  induction chunks with
  | nil => intro full f hf; simp [ragLoop] at hf
  | cons c rest ih =>
      intro full f hf
      simp only [ragLoop] at hf
      rcases hc : c.text with _ | t
      · rw [hc] at hf; exact ih _ f hf
      · rw [hc] at hf
        simp only [List.mem_cons] at hf
        rcases hf with h | h
        · subst h; rfl
        · exact ih _ f h

/-- The regular handler always ends with exactly one `done: true` frame. -/
theorem handleRegularResponse_oneDone (events : List UEvent) (exc : Option String) :
    oneDoneLast (handleRegularResponse events exc) = true := by
  unfold handleRegularResponse
  rcases exc with _ | m
  · exact oneDoneLast_append _ _ (regularLoop_done_false events initRegState) rfl
  · refine oneDoneLast_append _ _ ?_ rfl
    intro g hg
    rcases List.mem_append.mp hg with h | h
    · exact regularLoop_done_false events initRegState g h
    · simp only [List.mem_singleton] at h
      subst h; rfl

/-- The ReAct path of `tools.generate` ends with exactly one `done: true`
frame on every payload-bearing stream, raised or not. -/
theorem reactStream_oneDone (p : String → ParseResult) (q : String → Option JVal)
    (events : List UEvent) (exc : Option String) (hpay : allPayload events = true) :
    oneDoneLast (reactStream p q events exc) = true := by
  unfold reactStream
  dsimp only
  rw [reactLoop_completes p events initReactState hpay]
  simp only [if_true]
  rcases exc with _ | m
  · obtain ⟨gs, f, hend, hgs, hft, _⟩ :=
      reactEnd_shape q (reactLoop p initReactState events).2.1
    rw [hend, ← List.append_assoc]
    refine oneDoneLast_append _ _ ?_ hft
    intro g hg
    rcases List.mem_append.mp hg with h | h
    · exact reactLoop_done_false p events initReactState g h
    · exact hgs g h
  · exact oneDoneLast_append _ _ (reactLoop_done_false p events initReactState) rfl

/-- The chat generator ends with exactly one `done: true` frame when no
exception interrupts iteration. -/
theorem chatGenerate_oneDone (chunks : List ChatChunk) :
    oneDoneLast (chatGenerate chunks none) = true := by
  unfold chatGenerate
  exact oneDoneLast_append _ _ (chatLoop_done_false chunks "") rfl

/-- The RAG generator ends with exactly one `done: true` frame when no
exception interrupts iteration. -/
theorem ragGenerate_oneDone (ctx : String) (chunks : List RagChunk) :
    oneDoneLast (ragGenerate ctx chunks none) = true := by
  unfold ragGenerate
  exact oneDoneLast_append _ _ (ragLoop_done_false ctx chunks "") rfl

/-! ### Claim theorems -/

/-- C1 (amended): the regular agent handler always emits exactly one
`done: true` frame, last, even on exception; the ReAct path does so on
every payload-bearing stream, raised or not; the chat and RAG generators
do so when no exception is raised (an exception there ends the stream on
an `error` frame carrying no `done` key). -/
theorem relay_done_frame_discipline :
    (∀ (events : List UEvent) (exc : Option String),
        oneDoneLast (handleRegularResponse events exc) = true) ∧
    (∀ (p : String → ParseResult) (q : String → Option JVal) (events : List UEvent)
        (exc : Option String), allPayload events = true →
        oneDoneLast (reactStream p q events exc) = true) ∧
    (∀ chunks : List ChatChunk, oneDoneLast (chatGenerate chunks none) = true) ∧
    (∀ (ctx : String) (chunks : List RagChunk),
        oneDoneLast (ragGenerate ctx chunks none) = true) :=
  ⟨handleRegularResponse_oneDone,
   fun p q events exc h => reactStream_oneDone p q events exc h,
   chatGenerate_oneDone,
   ragGenerate_oneDone⟩

/-- C1 witness: the ReAct conjunct applied to a concrete payload-bearing
stream interrupted by an exception. -/
theorem relay_done_frame_discipline_witness :
    allPayload [UEvent.ev Payload.stepStart] = true ∧
    oneDoneLast (reactStream (fun _ => ParseResult.decodeErr) (fun _ => none)
      [UEvent.ev Payload.stepStart] (some "boom")) = true :=
  ⟨by decide,
   relay_done_frame_discipline.2.1 (fun _ => ParseResult.decodeErr) (fun _ => none)
     [UEvent.ev Payload.stepStart] (some "boom") (by decide)⟩

/-- C1 counterexample: when the chat-completion upstream raises before
yielding any chunk, `chat.generate` emits a single `{error}` frame and no
`done: true` frame at all, so the stream does not contain exactly one
terminal frame. -/
theorem chat_exception_drops_done_frame :
    chatGenerate [] (some "upstream failure") =
      [({ error := some "upstream failure" } : Frame)] ∧
    (chatGenerate [] (some "upstream failure")).countP isDoneTrue = 0 := by
  exact ⟨by decide, by decide⟩

/-- C2 (amended): on the scenario
`step_progress "Hel"`, `step_progress "lo"`, `turn_complete "Hello"`, the
regular handler emits `{Hel, done:false}`, `{Hello, done:false}`,
`{HelloHello, done:false}`, `{HelloHello, done:true}` — the
`turn_complete` content is appended to the already-accumulated buffer
unconditionally, duplicating it. -/
theorem turn_complete_scenario_frames :
    handleRegularResponse
      [UEvent.ev (Payload.stepProgress (some { text := some "Hel" })),
       UEvent.ev (Payload.stepProgress (some { text := some "lo" })),
       UEvent.ev (Payload.turnComplete (some (TurnContent.str "Hello")))] none =
      [({ content := some "Hel", done := some false } : Frame),
       ({ content := some "Hello", done := some false } : Frame),
       ({ content := some "HelloHello", done := some false } : Frame),
       ({ content := some "HelloHello", done := some true } : Frame)] := by
  decide

/-- C2 counterexample: the frames actually emitted on the scenario differ
from the claimed
`{Hel,false}`, `{Hello,false}`, `{Hello,false}`, `{Hello,true}`. -/
theorem turn_complete_scenario_not_as_claimed :
    handleRegularResponse
      [UEvent.ev (Payload.stepProgress (some { text := some "Hel" })),
       UEvent.ev (Payload.stepProgress (some { text := some "lo" })),
       UEvent.ev (Payload.turnComplete (some (TurnContent.str "Hello")))] none ≠
      [({ content := some "Hel", done := some false } : Frame),
       ({ content := some "Hello", done := some false } : Frame),
       ({ content := some "Hello", done := some false } : Frame),
       ({ content := some "Hello", done := some true } : Frame)] := by
  decide

/-- C5: when an inference `step_complete` arrives and the buffered step
text fails to parse as structured output, the ReAct loop emits exactly one
`error` frame carrying the raw unparsed text and continues processing the
remaining events with a cleared step buffer and otherwise unchanged
state. -/
theorem react_parse_failure_recovers (p : String → ParseResult) (st : ReactState)
    (o : Option String) (rest : List UEvent)
    (h : p st.currentStepContent = ParseResult.decodeErr) :
    reactLoop p st (UEvent.ev (Payload.stepComplete (StepDetails.inference o)) :: rest) =
      (({ error := some "Failed to parse ReAct step",
          content := some st.currentStepContent } : Frame) ::
         (reactLoop p { st with currentStepContent := "" } rest).1,
       (reactLoop p { st with currentStepContent := "" } rest).2) := by
  simp [reactLoop, reactEventStep, h]

/-- C5 witness: the theorem applied at a parser that always reports a
decode failure, on a concrete one-event stream. -/
theorem react_parse_failure_recovers_witness :
    (fun _ : String => ParseResult.decodeErr) "" = ParseResult.decodeErr ∧
    reactLoop (fun _ => ParseResult.decodeErr) initReactState
        [UEvent.ev (Payload.stepComplete (StepDetails.inference none))] =
      (({ error := some "Failed to parse ReAct step", content := some "" } : Frame) ::
         (reactLoop (fun _ => ParseResult.decodeErr)
            { initReactState with currentStepContent := "" } []).1,
       (reactLoop (fun _ => ParseResult.decodeErr)
          { initReactState with currentStepContent := "" } []).2) :=
  ⟨rfl,
   react_parse_failure_recovers (fun _ => ParseResult.decodeErr) initReactState none [] rfl⟩

/-- On a payload-bearing stream with no exception, the ReAct stream is the
loop frames followed by the end-of-loop frames. -/
theorem reactStream_none_eq (p : String → ParseResult) (q : String → Option JVal)
    (events : List UEvent)
    (hc : (reactLoop p initReactState events).2.2 = true) :
    reactStream p q events none =
      (reactLoop p initReactState events).1 ++
        reactEnd q (reactLoop p initReactState events).2.1 := by
  unfold reactStream
  dsimp only
  rw [hc]
  simp

/-- C4 (amended): on an empty upstream stream both handlers emit exactly
one `{content: "No response generated", done: true}` frame; the ReAct
ReAct terminal content is never the empty string; the regular handler
uses the placeholder exactly when no content event was captured
(`has_content` false) — a captured empty content leaves the terminal
content empty instead. -/
theorem empty_buffer_terminal_content :
    (handleRegularResponse [] none =
      [({ content := some "No response generated", done := some true } : Frame)]) ∧
    (∀ (p : String → ParseResult) (q : String → Option JVal),
        reactStream p q [] none =
          [({ content := some "No response generated", done := some true } : Frame)]) ∧
    (∀ (p : String → ParseResult) (q : String → Option JVal) (events : List UEvent),
        allPayload events = true →
        ∀ f, (reactStream p q events none).getLast? = some f → f.content ≠ some "") ∧
    (∀ (events : List UEvent) (exc : Option String),
        (regularLoop initRegState events).2.hasContent = false →
        (handleRegularResponse events exc).getLast? =
          some ({ content := some "No response generated", done := some true } : Frame)) := by
  refine ⟨by decide, fun p q => rfl, ?_, ?_⟩
  · intro p q events hpay f hlast
    have hc := reactLoop_completes p events initReactState hpay
    rw [reactStream_none_eq p q events hc] at hlast
    obtain ⟨gs, f2, hend, _, _, c, hc2, hcne⟩ :=
      reactEnd_shape q (reactLoop p initReactState events).2.1
    rw [hend, ← List.append_assoc, List.getLast?_concat] at hlast
    cases Option.some.inj hlast
    rw [hc2]
    intro h
    exact hcne (Option.some.inj h)
  · intro events exc h
    unfold handleRegularResponse
    rcases exc with _ | m <;> simp [List.getLast?_concat, h]

/-- C4 witness: the regular-handler conjunct applied to the empty
stream. -/
theorem empty_buffer_terminal_content_witness :
    (regularLoop initRegState []).2.hasContent = false ∧
    (handleRegularResponse [] none).getLast? =
      some ({ content := some "No response generated", done := some true } : Frame) :=
  ⟨by decide, empty_buffer_terminal_content.2.2.2 [] none (by decide)⟩

/-- C4 counterexample: a `turn_complete` carrying the empty string marks
content as captured while leaving the buffer empty, so the regular
regular-handler terminal frame carries `content: ""` — not the placeholder —
even though the accumulated buffer is empty at termination. -/
theorem empty_turn_complete_empty_terminal :
    handleRegularResponse
        [UEvent.ev (Payload.turnComplete (some (TurnContent.str "")))] none =
      [({ content := some "", done := some false } : Frame),
       ({ content := some "", done := some true } : Frame)] ∧
    ("" : String) ≠ "No response generated" :=
  ⟨by decide, by decide⟩

/-- The last element of a list extended by two elements. -/
theorem getLast?_append_pair {α : Type} (l : List α) (a b : α) :
    (l ++ [a, b]).getLast? = some b := by
  rw [show l ++ [a, b] = (l ++ [a]) ++ [b] by simp]
  exact List.getLast?_concat _

/-- C3: on a payload-bearing stream with no `turn_complete`, no captured
final answer, and at least one tool-execution step carrying a tool
response, the terminal `done: true` frame of the ReAct stream has non-empty
content equal to the accumulated buffer followed by the synthesized
summary of the collected tool results. -/
theorem react_tool_summary_fallback (p : String → ParseResult) (q : String → Option JVal)
    (events : List UEvent)
    (hpay : allPayload events = true)
    (_hnoturn : events.all (fun e => !isTurnComplete e) = true)
    (htool : events.any hasToolResponses = true)
    (hnoans : (reactFinalState p events).finalAnswer = none) :
    ∃ c, (reactStream p q events none).getLast? =
        some ({ content := some c, done := some true } : Frame) ∧
      c ≠ "" ∧
      c = (reactFinalState p events).fullResponse ++
          "\n\n**Here\x27s what I found:**\n" ++
          formatToolResultsSummary q (reactFinalState p events).toolResults := by
  have hc := reactLoop_completes p events initReactState hpay
  have hne : (reactLoop p initReactState events).2.1.toolResults ≠ [] :=
    reactLoop_toolResults_ne p events initReactState hpay htool
  have hnoans2 : (reactLoop p initReactState events).2.1.finalAnswer = none := hnoans
  simp only [reactFinalState]
  have hcond : ((reactLoop p initReactState events).2.1.finalAnswer.isNone &&
      !(reactLoop p initReactState events).2.1.toolResults.isEmpty) = true := by
    rw [hnoans2]
    rcases hl : (reactLoop p initReactState events).2.1.toolResults with _ | ⟨x, xs⟩
    · exact absurd hl hne
    · rfl
  have hfne : (reactLoop p initReactState events).2.1.fullResponse ++
      "\n\n**Here\x27s what I found:**\n" ++
      formatToolResultsSummary q (reactLoop p initReactState events).2.1.toolResults ≠ "" := by
    intro h
    have hlen := congrArg String.length h
    simp only [String.length_append] at hlen
    have h27 : (0:Nat) < ("\n\n**Here\x27s what I found:**\n").length := by decide
    have h0 : ("" : String).length = 0 := rfl
    omega
  refine ⟨_, ?_, hfne, rfl⟩
  rw [reactStream_none_eq p q events hc]
  unfold reactEnd
  rw [if_pos hcond]
  rw [getLast?_append_pair]
  have hbeq : (((reactLoop p initReactState events).2.1.fullResponse ++
      "\n\n**Here\x27s what I found:**\n" ++
      formatToolResultsSummary q (reactLoop p initReactState events).2.1.toolResults) == "")
        = false := by
    simp only [beq_eq_false_iff_ne, ne_eq]
    exact hfne
  simp [hbeq]

/-- C3 witness: the theorem applied to a concrete one-event stream whose
tool-execution step carries one tool response, with a failing parse
oracle and a failing summary-parse oracle. -/
theorem react_tool_summary_fallback_witness :
    allPayload [UEvent.ev (Payload.stepComplete (StepDetails.toolExecution []
      [{ tool_name := some "t", content := ToolContent.str "hi" }]))] = true ∧
    ([UEvent.ev (Payload.stepComplete (StepDetails.toolExecution []
      [{ tool_name := some "t", content := ToolContent.str "hi" }]))].all
        (fun e => !isTurnComplete e)) = true ∧
    ([UEvent.ev (Payload.stepComplete (StepDetails.toolExecution []
      [{ tool_name := some "t", content := ToolContent.str "hi" }]))].any
        hasToolResponses) = true ∧
    (reactFinalState (fun _ => ParseResult.decodeErr)
      [UEvent.ev (Payload.stepComplete (StepDetails.toolExecution []
        [{ tool_name := some "t", content := ToolContent.str "hi" }]))]).finalAnswer
      = none ∧
    ∃ c, (reactStream (fun _ => ParseResult.decodeErr) (fun _ => none)
        [UEvent.ev (Payload.stepComplete (StepDetails.toolExecution []
          [{ tool_name := some "t", content := ToolContent.str "hi" }]))] none).getLast? =
        some ({ content := some c, done := some true } : Frame) ∧
      c ≠ "" ∧
      c = (reactFinalState (fun _ => ParseResult.decodeErr)
            [UEvent.ev (Payload.stepComplete (StepDetails.toolExecution []
              [{ tool_name := some "t", content := ToolContent.str "hi" }]))]).fullResponse ++
          "\n\n**Here\x27s what I found:**\n" ++
          formatToolResultsSummary (fun _ => none)
            (reactFinalState (fun _ => ParseResult.decodeErr)
              [UEvent.ev (Payload.stepComplete (StepDetails.toolExecution []
                [{ tool_name := some "t", content := ToolContent.str "hi" }]))]).toolResults :=
  ⟨by decide, by decide, by decide, by decide,
   react_tool_summary_fallback (fun _ => ParseResult.decodeErr) (fun _ => none)
     [UEvent.ev (Payload.stepComplete (StepDetails.toolExecution []
       [{ tool_name := some "t", content := ToolContent.str "hi" }]))]
     (by decide) (by decide) (by decide) (by decide)⟩

/-- `headerGet` only depends on the lowercased key. -/
theorem headerGet_key_toLower (hs : List (String × String)) (k1 k2 : String)
    (h : lowerStr k1 = lowerStr k2) : headerGet hs k1 = headerGet hs k2 := by
  unfold headerGet
  rw [h]

/-- `pyOr` of equal probes. -/
theorem pyOr_self (a : Option String) : pyOr a a = a := by
  unfold pyOr
  split <;> rfl

/-- A truthy `X-Forwarded-Access-Token` header is returned verbatim. -/
theorem jwt_hit1 (hs : List (String × String)) (token : String)
    (h1 : headerGet hs "X-Forwarded-Access-Token" = some token) (hne : token ≠ "") :
    getJwtToken hs = some token := by
  have e1 : headerGet hs "x-forwarded-access-token" =
      headerGet hs "X-Forwarded-Access-Token" :=
    headerGet_key_toLower hs _ _ (by decide)
  simp only [getJwtToken, e1, pyOr_self, h1]
  simp [strTruthy, hne]

/-- With the first header non-truthy, a truthy
`X-Auth-Request-Access-Token` header is returned verbatim. -/
theorem jwt_hit2 (hs : List (String × String)) (token : String)
    (h1 : strTruthy (headerGet hs "X-Forwarded-Access-Token") = false)
    (h2 : headerGet hs "X-Auth-Request-Access-Token" = some token) (hne : token ≠ "") :
    getJwtToken hs = some token := by
  have e1 : headerGet hs "x-forwarded-access-token" =
      headerGet hs "X-Forwarded-Access-Token" :=
    headerGet_key_toLower hs _ _ (by decide)
  have e2 : headerGet hs "x-auth-request-access-token" =
      headerGet hs "X-Auth-Request-Access-Token" :=
    headerGet_key_toLower hs _ _ (by decide)
  simp only [getJwtToken, e1, e2, pyOr_self, h1, h2]
  simp [strTruthy, hne]

/-- With the two access-token headers non-truthy, a truthy `Authorization`
header yields its whitespace-stripped Bearer suffix exactly when it is
Bearer-prefixed with a non-blank suffix. -/
theorem jwt_auth_header (hs : List (String × String)) (s : String)
    (h1 : strTruthy (headerGet hs "X-Forwarded-Access-Token") = false)
    (h2 : strTruthy (headerGet hs "X-Auth-Request-Access-Token") = false)
    (h3 : headerGet hs "Authorization" = some s) (hne : s ≠ "") :
    getJwtToken hs =
      (if strStartsWith s "Bearer " && !(pyStrip (strDrop s 7) == "")
       then some (pyStrip (strDrop s 7)) else none) := by
  have e1 : headerGet hs "x-forwarded-access-token" =
      headerGet hs "X-Forwarded-Access-Token" :=
    headerGet_key_toLower hs _ _ (by decide)
  have e2 : headerGet hs "x-auth-request-access-token" =
      headerGet hs "X-Auth-Request-Access-Token" :=
    headerGet_key_toLower hs _ _ (by decide)
  have e3 : headerGet hs "authorization" = headerGet hs "Authorization" :=
    headerGet_key_toLower hs _ _ (by decide)
  have e4 : headerGet hs "x-forwarded-authorization" =
      headerGet hs "X-Forwarded-Authorization" :=
    headerGet_key_toLower hs _ _ (by decide)
  have htr : strTruthy (some s) = true := by simp [strTruthy, hne]
  simp only [getJwtToken, e1, e2, e3, e4, pyOr_self, h1, h2, h3]
  simp only [Bool.false_eq_true, if_false, pyOr, htr, if_true]
  by_cases hb : strStartsWith s "Bearer "
  · by_cases ht : (pyStrip (strDrop s 7) == "") = true
    · simp [hb, ht]
    · simp only [Bool.not_eq_true] at ht
      simp [hb, ht]
  · simp [hb]

/-- With the two access-token headers non-truthy and `Authorization`
non-truthy, a truthy `X-Forwarded-Authorization` header is treated the
same way. -/
theorem jwt_auth_fwd (hs : List (String × String)) (s : String)
    (h1 : strTruthy (headerGet hs "X-Forwarded-Access-Token") = false)
    (h2 : strTruthy (headerGet hs "X-Auth-Request-Access-Token") = false)
    (h3 : strTruthy (headerGet hs "Authorization") = false)
    (h4 : headerGet hs "X-Forwarded-Authorization" = some s) (hne : s ≠ "") :
    getJwtToken hs =
      (if strStartsWith s "Bearer " && !(pyStrip (strDrop s 7) == "")
       then some (pyStrip (strDrop s 7)) else none) := by
  have e1 : headerGet hs "x-forwarded-access-token" =
      headerGet hs "X-Forwarded-Access-Token" :=
    headerGet_key_toLower hs _ _ (by decide)
  have e2 : headerGet hs "x-auth-request-access-token" =
      headerGet hs "X-Auth-Request-Access-Token" :=
    headerGet_key_toLower hs _ _ (by decide)
  have e3 : headerGet hs "authorization" = headerGet hs "Authorization" :=
    headerGet_key_toLower hs _ _ (by decide)
  have e4 : headerGet hs "x-forwarded-authorization" =
      headerGet hs "X-Forwarded-Authorization" :=
    headerGet_key_toLower hs _ _ (by decide)
  have htr : strTruthy (some s) = true := by simp [strTruthy, hne]
  simp only [getJwtToken, e1, e2, e3, e4, pyOr_self, h1, h2, h4]
  simp only [Bool.false_eq_true, if_false, pyOr, h3, htr, if_true]
  by_cases hb : strStartsWith s "Bearer "
  · by_cases ht : (pyStrip (strDrop s 7) == "") = true
    · simp [hb, ht]
    · simp only [Bool.not_eq_true] at ht
      simp [hb, ht]
  · simp [hb]

/-- With all four probed headers non-truthy, no token is found. -/
theorem jwt_none (hs : List (String × String))
    (h1 : strTruthy (headerGet hs "X-Forwarded-Access-Token") = false)
    (h2 : strTruthy (headerGet hs "X-Auth-Request-Access-Token") = false)
    (h3 : strTruthy (headerGet hs "Authorization") = false)
    (h4 : strTruthy (headerGet hs "X-Forwarded-Authorization") = false) :
    getJwtToken hs = none := by
  have e1 : headerGet hs "x-forwarded-access-token" =
      headerGet hs "X-Forwarded-Access-Token" :=
    headerGet_key_toLower hs _ _ (by decide)
  have e2 : headerGet hs "x-auth-request-access-token" =
      headerGet hs "X-Auth-Request-Access-Token" :=
    headerGet_key_toLower hs _ _ (by decide)
  have e3 : headerGet hs "authorization" = headerGet hs "Authorization" :=
    headerGet_key_toLower hs _ _ (by decide)
  have e4 : headerGet hs "x-forwarded-authorization" =
      headerGet hs "X-Forwarded-Authorization" :=
    headerGet_key_toLower hs _ _ (by decide)
  simp only [getJwtToken, e1, e2, e3, e4, pyOr_self, h1, h2]
  simp only [Bool.false_eq_true, if_false, pyOr, h3]
  rcases hg : headerGet hs "X-Forwarded-Authorization" with _ | s4
  · rfl
  · rw [hg] at h4
    have hs4 : s4 = "" := by simpa [strTruthy] using h4
    subst hs4
    decide

/-- C6: a non-empty token placed in the `X-Forwarded-Access-Token` header
is returned by the token extractor exactly as found, with no
transformation. -/
theorem forwarded_token_roundtrip (hs : List (String × String)) (token : String)
    (hfind : headerGet hs "X-Forwarded-Access-Token" = some token)
    (hne : token ≠ "") :
    getJwtToken hs = some token :=
  jwt_hit1 hs token hfind hne

/-- C6 witness: the theorem applied to a concrete header mapping. -/
theorem forwarded_token_roundtrip_witness :
    headerGet [("X-Forwarded-Access-Token", "eyJhbGciOi.abc.def")]
        "X-Forwarded-Access-Token" = some "eyJhbGciOi.abc.def" ∧
    ("eyJhbGciOi.abc.def" : String) ≠ "" ∧
    getJwtToken [("X-Forwarded-Access-Token", "eyJhbGciOi.abc.def")] =
      some "eyJhbGciOi.abc.def" :=
  ⟨by decide, by decide,
   forwarded_token_roundtrip [("X-Forwarded-Access-Token", "eyJhbGciOi.abc.def")]
     "eyJhbGciOi.abc.def" (by decide) (by decide)⟩

/-- C7 (amended): the extractor returns the first truthy hit in priority
order — forwarded-access-token, auth-request-access-token, then the first
truthy of `Authorization`/`X-Forwarded-Authorization`, whose
whitespace-stripped Bearer suffix is returned only when that single value
is Bearer-prefixed with a non-blank suffix (a truthy non-Bearer
`Authorization` value therefore masks a Bearer forwarded variant), and
`none` when all probes are non-truthy. -/
theorem jwt_priority_order :
    (∀ (hs : List (String × String)) (token : String),
        headerGet hs "X-Forwarded-Access-Token" = some token → token ≠ "" →
        getJwtToken hs = some token) ∧
    (∀ (hs : List (String × String)) (token : String),
        strTruthy (headerGet hs "X-Forwarded-Access-Token") = false →
        headerGet hs "X-Auth-Request-Access-Token" = some token → token ≠ "" →
        getJwtToken hs = some token) ∧
    (∀ (hs : List (String × String)) (s : String),
        strTruthy (headerGet hs "X-Forwarded-Access-Token") = false →
        strTruthy (headerGet hs "X-Auth-Request-Access-Token") = false →
        headerGet hs "Authorization" = some s → s ≠ "" →
        getJwtToken hs =
          (if strStartsWith s "Bearer " && !(pyStrip (strDrop s 7) == "")
           then some (pyStrip (strDrop s 7)) else none)) ∧
    (∀ (hs : List (String × String)) (s : String),
        strTruthy (headerGet hs "X-Forwarded-Access-Token") = false →
        strTruthy (headerGet hs "X-Auth-Request-Access-Token") = false →
        strTruthy (headerGet hs "Authorization") = false →
        headerGet hs "X-Forwarded-Authorization" = some s → s ≠ "" →
        getJwtToken hs =
          (if strStartsWith s "Bearer " && !(pyStrip (strDrop s 7) == "")
           then some (pyStrip (strDrop s 7)) else none)) ∧
    (∀ hs : List (String × String),
        strTruthy (headerGet hs "X-Forwarded-Access-Token") = false →
        strTruthy (headerGet hs "X-Auth-Request-Access-Token") = false →
        strTruthy (headerGet hs "Authorization") = false →
        strTruthy (headerGet hs "X-Forwarded-Authorization") = false →
        getJwtToken hs = none) :=
  ⟨jwt_hit1, jwt_hit2, jwt_auth_header, jwt_auth_fwd, jwt_none⟩

/-- C7 witness: the Authorization conjunct applied to a concrete header
mapping carrying a Bearer credential. -/
theorem jwt_priority_order_witness :
    strTruthy (headerGet [("Authorization", "Bearer tok")]
      "X-Forwarded-Access-Token") = false ∧
    strTruthy (headerGet [("Authorization", "Bearer tok")]
      "X-Auth-Request-Access-Token") = false ∧
    headerGet [("Authorization", "Bearer tok")] "Authorization" = some "Bearer tok" ∧
    ("Bearer tok" : String) ≠ "" ∧
    getJwtToken [("Authorization", "Bearer tok")] =
      (if strStartsWith "Bearer tok" "Bearer " &&
          !(pyStrip (strDrop "Bearer tok" 7) == "")
       then some (pyStrip (strDrop "Bearer tok" 7)) else none) :=
  ⟨by decide, by decide, by decide, by decide,
   jwt_priority_order.2.2.1 [("Authorization", "Bearer tok")] "Bearer tok"
     (by decide) (by decide) (by decide) (by decide)⟩

/-- C7 counterexample: with `Authorization: Basic xyz` and
`X-Forwarded-Authorization: Bearer tok`, the forwarded variant carries a
non-empty Bearer credential yet the extractor returns `none` — the truthy
non-Bearer `Authorization` value masks it, so the extractor does not
return the first non-empty credential among the probed headers. -/
theorem jwt_masking_counterexample :
    headerGet [("Authorization", "Basic xyz"), ("X-Forwarded-Authorization", "Bearer tok")]
        "X-Forwarded-Authorization" = some "Bearer tok" ∧
    getJwtToken
        [("Authorization", "Basic xyz"), ("X-Forwarded-Authorization", "Bearer tok")] =
      none :=
  ⟨by decide, by decide⟩

/-- C8: whenever the toolgroup discovery call is actually issued (cache
empty or caching disabled) and fails, the MCP endpoint lookup returns —
rather than propagates — the single hardcoded `mcp::openshift` default
mapping, and stores it in the cache. -/
theorem mcp_fallback_on_failure :
    (∀ (useCache : Bool) (msg : String),
        getMcpEndpoints none useCache (Except.error msg) =
          (fallbackEndpoints, some fallbackEndpoints, true)) ∧
    (∀ (cache : Option (List (String × String))) (msg : String),
        getMcpEndpoints cache false (Except.error msg) =
          (fallbackEndpoints, some fallbackEndpoints, true)) := by
  constructor
  · intro useCache msg
    simp [getMcpEndpoints]
  · intro cache msg
    simp [getMcpEndpoints]

/-- C10 (amended): after any call the cache is set — to the discovery
result, possibly the empty mapping, or to the fallback — and every later
call with caching enabled returns the cached dictionary unchanged without
issuing another toolgroup listing call. -/
theorem mcp_cache_persistence :
    (∀ (cache : Option (List (String × String))) (useCache : Bool)
        (listing : Except String (List ToolGroup)),
        ((getMcpEndpoints cache useCache listing).2.1).isSome = true) ∧
    (∀ (c : List (String × String)) (listing : Except String (List ToolGroup)),
        getMcpEndpoints (some c) true listing = (c, some c, false)) := by
  constructor
  · intro cache useCache listing
    unfold getMcpEndpoints
    split
    · next h =>
        rcases cache with _ | c
        · simp at h
        · rfl
    · cases listing <;> rfl
  · intro c listing
    rfl

/-- C10 counterexample: a successful discovery that finds no MCP
toolgroups stores the empty mapping in the cache, so the cache is set but
empty after the call. -/
theorem mcp_cache_empty_counterexample :
    getMcpEndpoints none true (Except.ok []) =
      (([] : List (String × String)), some ([] : List (String × String)), true) :=
  by decide

/-- C9 (amended): the playground chat page degrades to an empty model
list and always renders, but the evaluation pages issue their listing
calls unguarded, so a failing listing propagates out of the route instead
of rendering a page with empty lists. -/
theorem page_routes_error_behavior :
    (∀ msg : String, chatGet (Except.error msg) = Except.ok []) ∧
    (∀ listing : Except String (List LlmModel), ∃ ms, chatGet listing = Except.ok ms) ∧
    (∀ msg : String, appEvalGet (Except.error msg) = Except.error msg) ∧
    (∀ (msg : String) (ml : Except String (List LlmModel)),
        nativeEvalGet (Except.error msg) ml = Except.error msg) ∧
    (∀ (bs : List String) (msg : String),
        nativeEvalGet (Except.ok bs) (Except.error msg) = Except.error msg) := by
  refine ⟨fun msg => rfl, ?_, fun msg => rfl, fun msg ml => rfl, fun bs msg => rfl⟩
  intro listing
  cases listing <;> exact ⟨_, rfl⟩

/-- C9 counterexample: a failing scoring-function listing makes the
`app_eval` GET route propagate the failure (an error page), not render
with empty lists. -/
theorem app_eval_propagates_counterexample :
    appEvalGet (Except.error "HTTP 401 from scoring_functions.list") =
      Except.error "HTTP 401 from scoring_functions.list" := by
  rfl
